import Mathlib

/-!
A shallow embedding of `src/js/packages/cli/src/helpers/upload/arweave-bundle.ts`
(the Arweave bundle upload helper of the Metaplex CLI), together with proofs of
the specification's claims about it.

Modelling conventions:
- Async functions returning promises that may reject are modelled as functions
  into `Except UploadError _`.
- The filesystem collaborator (`fs/promises.stat` / `readFile`) is modelled as a
  partial map from paths to files, each file carrying its byte size and its
  content.  A missing file makes `stat`/`readFile` fail, as in node.
- File contents are either opaque bytes or a well-formed (parseable) manifest
  document; `JSON.parse` succeeds exactly on the latter.  Manifest documents
  carry opaque `rest` fields standing for all JSON fields other than `image`
  and `properties.files`, so that "all other fields unchanged" is expressible.
- The signing collaborator (`ArweaveSigner` / `DataItem.sign`) is an
  environment-supplied function assigning an id to a data item from its payload
  and tags; it may fail (SigningError).
- `bundleAndSignData` + `toTransaction` + `transactions.sign` +
  `transactions.post` are lumped into one environment-supplied `submit`
  operation on the ordered list of data items, which may fail
  (SubmissionError); the claims only depend on the record list handed to it.
- The generator (`makeArweaveBundleUploadGenerator`) is pull-based; we model a
  run of `fuel` pulls explicitly, each pull producing the settled value of the
  yielded promise and the pending-list state it leaves behind.
- The bundle byte limit is a module constant in the source
  (`BUNDLE_SIZE_BYTE_LIMIT`); functions here take the limit as an explicit
  parameter so that the spec's quantification over limits is expressible, and
  the constant is kept as the default value used by the CLI.
-/

namespace ArweaveBundle

/-- A tag attached to a record, e.g. Content-Type (arweave-bundle.ts:52-61). -/
structure Tag where
  name : String
  value : String
deriving DecidableEq, Repr

/-- One entry of a manifest's `properties.files` array (arweave-bundle.ts:21). -/
structure ManifestFileEntry where
  type : String
  uri : String
deriving DecidableEq, Repr

/-- The `properties` object of a manifest (arweave-bundle.ts:20-22).  `rest`
stands for all other JSON fields of the object, untouched by the code. -/
structure ManifestProperties where
  files : List ManifestFileEntry
  rest : List (String × String)
deriving DecidableEq, Repr

/-- A parsed manifest document (arweave-bundle.ts:18-23).  `rest` stands for
all other JSON fields of the document, untouched by the code. -/
structure Manifest where
  image : String
  properties : ManifestProperties
  rest : List (String × String)
deriving DecidableEq, Repr

/-- Content of an on-disk file: either opaque bytes (images, malformed JSON)
or a well-formed manifest document.  `JSON.parse` succeeds exactly on the
latter. -/
inductive FileContent where
  | bytes (data : List Nat)
  | json (m : Manifest)
deriving DecidableEq, Repr

/-- An on-disk file: its `stat` size and its content. -/
structure FsFile where
  size : Nat
  content : FileContent
deriving DecidableEq, Repr

/-- The filesystem collaborator: a partial map from paths to files. -/
def FS : Type := String → Option FsFile

/-- The error taxonomy of the helper (spec section 7): every way a promise in
arweave-bundle.ts can reject. -/
inductive UploadError where
  | oversizePair (key : String) (size : Nat)
  | statError (path : String)
  | readError (path : String)
  | parseError
  | signingError
  | submissionError
deriving DecidableEq, Repr

/-- An asset file pair (arweave-bundle.ts:95-99). -/
structure FilePair where
  key : String
  image : String
  manifest : String
deriving DecidableEq, Repr

/-- A bundle range (arweave-bundle.ts:106-109): the number of leading file
pairs to include in the next bundle and their total size in bytes. -/
structure BundleRange where
  range : Nat
  size : Nat
deriving DecidableEq, Repr

/-- The bundle size limit constant (arweave-bundle.ts:47). -/
def BUNDLE_SIZE_BYTE_LIMIT : Nat := 200 * 1000 * 1000

/-- `stat` on a path: the file's size, or failure when the file is missing. -/
def statSize (fs : FS) (path : String) : Except UploadError Nat :=
  match fs path with
  | some f => Except.ok f.size
  | none => Except.error (UploadError.statError path)

/-- The size of a file pair: image size plus manifest size, as computed by the
inner reduce of getBundleRange (arweave-bundle.ts:121-125). -/
def filePairSize (fs : FS) (pair : FilePair) : Except UploadError Nat := do
  let a ← statSize fs pair.image
  let b ← statSize fs pair.manifest
  return a + b

/-- The loop of getBundleRange (arweave-bundle.ts:117-144), with the running
`total` and `range` accumulators explicit. -/
def getBundleRangeAux (fs : FS) (limit : Nat) :
    List FilePair → Nat → Nat → Except UploadError BundleRange
  | [], total, range => Except.ok { range := range, size := total }
  | pair :: rest, total, range => do
    let s ← filePairSize fs pair
    if limit ≤ total + s then
      if range = 0 then
        Except.error (UploadError.oversizePair pair.key s)
      else
        Except.ok { range := range, size := total }
    else
      getBundleRangeAux fs limit rest (total + s) (range + 1)

/-- getBundleRange (arweave-bundle.ts:117-144): compute how many leading file
pairs fit under the byte limit. -/
def getBundleRange (fs : FS) (limit : Nat) (filePairs : List FilePair) :
    Except UploadError BundleRange :=
  getBundleRangeAux fs limit filePairs 0 0

/-- The per-pair sizes of a pending list, when every stat succeeds. -/
def sizesOf (fs : FS) (pairs : List FilePair) : Option (List Nat) :=
  pairs.mapM (fun p => (filePairSize fs p).toOption)

/-- The pure size-level counterpart of the getBundleRange loop: it sees only
the sequence of per-pair sizes (used to analyse getBundleRange and to state
its noninterference property). -/
def rangeOfSizes (limit : Nat) : List Nat → Nat → Nat → Except Unit BundleRange
  | [], total, range => Except.ok { range := range, size := total }
  | s :: rest, total, range =>
    if limit ≤ total + s then
      if range = 0 then Except.error ()
      else Except.ok { range := range, size := total }
    else rangeOfSizes limit rest (total + s) (range + 1)

/-- Base tags included with every record (arweave-bundle.ts:52). -/
def BASE_TAGS : List Tag := [{ name := "App-Name", value := "Metaplex Candy Machine" }]

/-- The PNG content type (arweave-bundle.ts:54-56). -/
def CONTENT_TYPES_png : String := "image/png"

/-- Content-Type tag for PNG records (arweave-bundle.ts:58-61). -/
def contentTypeTagPng : Tag := { name := "Content-Type", value := CONTENT_TYPES_png }

/-- Content-Type tag for JSON records (arweave-bundle.ts:58-61). -/
def contentTypeTagJson : Tag := { name := "Content-Type", value := "application/json" }

/-- Tags put on every image data item (arweave-bundle.ts:146). -/
def imageTags : List Tag := BASE_TAGS ++ [contentTypeTagPng]

/-- Tags put on every manifest data item (arweave-bundle.ts:160). -/
def manifestTags : List Tag := BASE_TAGS ++ [contentTypeTagJson]

/-- A data item (record): a payload, its tags and the id assigned by signing
(empty before signing). -/
structure DataItem where
  payload : FileContent
  tags : List Tag
  id : String
deriving DecidableEq, Repr

/-- arbundles' createData: wrap a payload and tags as an unsigned data item. -/
def createData (payload : FileContent) (tags : List Tag) : DataItem :=
  { payload := payload, tags := tags, id := "" }

/-- The environment of external collaborators: the filesystem, the signer
(assigns a record id from payload and tags, may fail), and the bundle
submission pipeline (bundleAndSignData, toTransaction, transactions.sign,
transactions.post of arweave-bundle.ts:273-283, lumped together; may fail). -/
structure Env where
  fs : FS
  sign : FileContent → List Tag → Except UploadError String
  submit : List DataItem → Except UploadError Unit

/-- DataItem.sign: assign the id obtained from the signer. -/
def signItem (env : Env) (item : DataItem) : Except UploadError DataItem :=
  (env.sign item.payload item.tags).map (fun i => { item with id := i })

/-- `readFile` on a path: the file's content, or failure when missing. -/
def readFileContent (fs : FS) (path : String) : Except UploadError FileContent :=
  match fs path with
  | some f => Except.ok f.content
  | none => Except.error (UploadError.readError path)

/-- `JSON.parse` of a file's content: succeeds exactly on a well-formed
manifest document. -/
def parseManifest : FileContent → Except UploadError Manifest
  | FileContent.json m => Except.ok m
  | FileContent.bytes _ => Except.error UploadError.parseError

/-- getImageDataItem (arweave-bundle.ts:151-158): read the image file and wrap
its bytes as a data item with the image tags. -/
def getImageDataItem (env : Env) (image : String) : Except UploadError DataItem :=
  (readFileContent env.fs image).map (fun c => createData c imageTags)

/-- getManifestDataItem (arweave-bundle.ts:165-167): wrap the serialized
manifest as a data item with the manifest tags. -/
def getManifestDataItem (manifest : Manifest) : DataItem :=
  createData (FileContent.json manifest) manifestTags

/-- getUpdatedManifest (arweave-bundle.ts:173-184): read and parse the
manifest file, set its image field to the image link and replace its
properties.files with the single entry pointing at that link. -/
def getUpdatedManifest (fs : FS) (manifestPath : String) (imageLink : String) :
    Except UploadError Manifest := do
  let c ← readFileContent fs manifestPath
  let manifest ← parseManifest c
  return { manifest with
           image := imageLink,
           properties := { manifest.properties with
                           files := [{ type := CONTENT_TYPES_png, uri := imageLink }] } }

/-- The accumulator of processBundleFilePair (arweave-bundle.ts:29-34). -/
structure ProcessedBundleFilePairs where
  cacheKeys : List String
  dataItems : List DataItem
  manifestLinks : List String
  updatedManifests : List Manifest
deriving DecidableEq, Repr

/-- The per-bundle result yielded to the caller: ProcessedBundleFilePairs
without the dataItems (arweave-bundle.ts:40). -/
structure UploadGeneratorResult where
  cacheKeys : List String
  manifestLinks : List String
  updatedManifests : List Manifest
deriving DecidableEq, Repr

/-- The canonical retrieval link of a signed record (arweave-bundle.ts:246,254). -/
def arweaveLink (id : String) : String := "https://arweave.net/" ++ id

/-- processBundleFilePair (arweave-bundle.ts:237-263): process one file pair,
appending its cache key, its two signed data items (image first, then
manifest), its manifest link and its updated manifest to the accumulator. -/
def processBundleFilePair (env : Env)
    (accE : Except UploadError ProcessedBundleFilePairs) (filePair : FilePair) :
    Except UploadError ProcessedBundleFilePairs := do
  let acc ← accE
  let imageItem ← getImageDataItem env filePair.image
  let imageDataItem ← signItem env imageItem
  let imageLink := arweaveLink imageDataItem.id
  let manifest ← getUpdatedManifest env.fs filePair.manifest imageLink
  let manifestDataItem ← signItem env (getManifestDataItem manifest)
  let manifestLink := arweaveLink manifestDataItem.id
  return { cacheKeys := acc.cacheKeys ++ [filePair.key],
           dataItems := acc.dataItems ++ [imageDataItem, manifestDataItem],
           manifestLinks := acc.manifestLinks ++ [manifestLink],
           updatedManifests := acc.updatedManifests ++ [manifest] }

/-- The empty ProcessedBundleFilePairs accumulator (arweave-bundle.ts:264-269). -/
def emptyProcessed : ProcessedBundleFilePairs :=
  { cacheKeys := [], dataItems := [], manifestLinks := [], updatedManifests := [] }

/-- The reduce of arweave-bundle.ts:229-270: fold processBundleFilePair over
the selected pairs starting from the empty accumulator. -/
def processPairs (env : Env) (pairs : List FilePair) :
    Except UploadError ProcessedBundleFilePairs :=
  pairs.foldl (processBundleFilePair env) (Except.ok emptyProcessed)

/-- processBundle (arweave-bundle.ts:219-287) after the splice: process each
selected pair, submit the aggregated data items as one bundle, and return the
bookkeeping. -/
def processBundle (env : Env) (pairs : List FilePair) :
    Except UploadError UploadGeneratorResult := do
  let acc ← processPairs env pairs
  let _ ← env.submit acc.dataItems
  return { cacheKeys := acc.cacheKeys,
           manifestLinks := acc.manifestLinks,
           updatedManifests := acc.updatedManifests }

/-- One pull of the generator's loop (arweave-bundle.ts:218-289): `none` when
the pending list is empty (sequence exhausted); otherwise the settled value of
the yielded promise and the pending list left behind.  When getBundleRange
rejects, processBundle never runs and the pending list is unchanged; when it
resolves, the range's pairs are spliced off the front before any pair is
processed, so they stay removed even when processBundle rejects. -/
def driverStep (env : Env) (limit : Nat) (pending : List FilePair) :
    Option (Except UploadError UploadGeneratorResult × List FilePair) :=
  match pending with
  | [] => none
  | _ :: _ =>
    match getBundleRange env.fs limit pending with
    | Except.error e => some (Except.error e, pending)
    | Except.ok br =>
      some (processBundle env (pending.take br.range), pending.drop br.range)

/-- A run of `fuel` pulls of the generator's loop, collecting the settled
values of the yielded promises (the caller awaits each before the next pull,
as the single-threaded driver does). -/
def driverRun (env : Env) (limit : Nat) :
    Nat → List FilePair → List (Except UploadError UploadGeneratorResult)
  | 0, _ => []
  | fuel + 1, pending =>
    match driverStep env limit pending with
    | none => []
    | some (res, rest) => res :: driverRun env limit fuel rest

/-- The pending list left after a run of `fuel` pulls. -/
def driverPendingAfter (env : Env) (limit : Nat) :
    Nat → List FilePair → List FilePair
  | 0, pending => pending
  | fuel + 1, pending =>
    match driverStep env limit pending with
    | none => pending
    | some (_, rest) => driverPendingAfter env limit fuel rest

/-- EXTENSION_PNG, imported from ../constants (arweave-bundle.ts:11).
Modelled from the spec: the constants module is not under src/; the spec's
section 6 gives the image path as `<dir>/<key>.<image-ext>` with PNG the
image type, so the extension is ".png". -/
def EXTENSION_PNG : String := ".png"

/-- path.join as used at arweave-bundle.ts:204-205. -/
def pathJoin (a b : String) : String := a ++ "/" ++ b

/-- The pending file-pair list built from the asset list
(arweave-bundle.ts:202-206). -/
def filePairsOf (dirname : String) (assets : List String) : List FilePair :=
  assets.map (fun asset =>
    { key := asset,
      image := pathJoin dirname (asset ++ EXTENSION_PNG),
      manifest := pathJoin dirname (asset ++ ".json") })

/-- The empty result yielded before any processing (arweave-bundle.ts:210-214). -/
def emptyResult : UploadGeneratorResult :=
  { cacheKeys := [], manifestLinks := [], updatedManifests := [] }

/-- makeArweaveBundleUploadGenerator (arweave-bundle.ts:194-290), observed
through `fuel + 1` pulls: the initial empty result followed by the results of
`fuel` pulls of the bundle loop. -/
def makeArweaveBundleUploadGenerator (env : Env) (limit : Nat) (fuel : Nat)
    (dirname : String) (assets : List String) :
    List (Except UploadError UploadGeneratorResult) :=
  Except.ok emptyResult :: driverRun env limit fuel (filePairsOf dirname assets)

/-! ### Reduction lemmas for the Except monad -/

@[simp] theorem except_bind_ok {ε α β : Type} (a : α) (f : α → Except ε β) :
    (Except.ok a : Except ε α) >>= f = f a := rfl

@[simp] theorem except_bind_error {ε α β : Type} (e : ε) (f : α → Except ε β) :
    (Except.error e : Except ε α) >>= f = Except.error e := rfl

@[simp] theorem except_fmap_ok {ε α β : Type} (f : α → β) (a : α) :
    f <$> (Except.ok a : Except ε α) = Except.ok (f a) := rfl

@[simp] theorem except_fmap_error {ε α β : Type} (f : α → β) (e : ε) :
    f <$> (Except.error e : Except ε α) = Except.error e := rfl

@[simp] theorem except_map_ok {ε α β : Type} (f : α → β) (a : α) :
    Except.map f (Except.ok a : Except ε α) = Except.ok (f a) := rfl

@[simp] theorem except_map_error {ε α β : Type} (f : α → β) (e : ε) :
    Except.map f (Except.error e : Except ε α) = Except.error e := rfl

@[simp] theorem except_pure_eq {ε α : Type} (a : α) :
    (pure a : Except ε α) = Except.ok a := rfl

@[simp] theorem except_toOption_ok {ε α : Type} (a : α) :
    (Except.ok a : Except ε α).toOption = some a := rfl

@[simp] theorem except_toOption_error {ε α : Type} (e : ε) :
    (Except.error e : Except ε α).toOption = none := rfl

@[simp] theorem option_bind_some {α β : Type} (a : α) (f : α → Option β) :
    (some a >>= f) = f a := rfl

@[simp] theorem option_bind_none {α β : Type} (f : α → Option β) :
    ((none : Option α) >>= f) = none := rfl

@[simp] theorem option_pure_eq {α : Type} (a : α) : (pure a : Option α) = some a := rfl

/-! ### Decomposition of the per-pair processing -/

/-- Everything processBundleFilePair appends for one file pair, bundled:
the pair's key, its signed image and manifest data items, the updated
manifest and the manifest link. -/
structure PairResult where
  key : String
  imageItem : DataItem
  manifestItem : DataItem
  manifest : Manifest
  manifestLink : String
deriving DecidableEq, Repr

/-- The accumulator-free core of processBundleFilePair: what processing one
file pair produces, independent of what was accumulated before it. -/
def transformPair (env : Env) (filePair : FilePair) : Except UploadError PairResult := do
  let imageItem ← getImageDataItem env filePair.image
  let imageDataItem ← signItem env imageItem
  let imageLink := arweaveLink imageDataItem.id
  let manifest ← getUpdatedManifest env.fs filePair.manifest imageLink
  let manifestDataItem ← signItem env (getManifestDataItem manifest)
  let manifestLink := arweaveLink manifestDataItem.id
  return { key := filePair.key,
           imageItem := imageDataItem,
           manifestItem := manifestDataItem,
           manifest := manifest,
           manifestLink := manifestLink }

/-- transformPair applied to each pair in order, failing on the first failure
(the shape the reduce of arweave-bundle.ts:229-270 decomposes into). -/
def transformAll (env : Env) : List FilePair → Except UploadError (List PairResult)
  | [] => Except.ok []
  | p :: rest => do
    let r ← transformPair env p
    let rs ← transformAll env rest
    return r :: rs

/-- Append one pair's results to the accumulator, as the tail of
processBundleFilePair does (arweave-bundle.ts:256-259). -/
def appendPairResult (acc : ProcessedBundleFilePairs) (r : PairResult) :
    ProcessedBundleFilePairs :=
  { cacheKeys := acc.cacheKeys ++ [r.key],
    dataItems := acc.dataItems ++ [r.imageItem, r.manifestItem],
    manifestLinks := acc.manifestLinks ++ [r.manifestLink],
    updatedManifests := acc.updatedManifests ++ [r.manifest] }

/-- Fold a list of pair results onto an accumulator. -/
def appendAll (acc : ProcessedBundleFilePairs) (prs : List PairResult) :
    ProcessedBundleFilePairs :=
  prs.foldl appendPairResult acc

theorem processBundleFilePair_error (env : Env) (e : UploadError) (p : FilePair) :
    processBundleFilePair env (Except.error e) p = Except.error e := rfl

theorem foldl_processBundleFilePair_error (env : Env) (e : UploadError) :
    ∀ pairs : List FilePair,
      List.foldl (processBundleFilePair env) (Except.error e) pairs = Except.error e
  | [] => rfl
  | _ :: rest => foldl_processBundleFilePair_error env e rest

theorem processBundleFilePair_ok (env : Env) (acc : ProcessedBundleFilePairs)
    (p : FilePair) :
    processBundleFilePair env (Except.ok acc) p =
      (transformPair env p).map (fun r => appendPairResult acc r) := by
  unfold processBundleFilePair transformPair
  cases h1 : getImageDataItem env p.image with
  | error e => rfl
  | ok item =>
    cases h2 : signItem env item with
    | error e => simp [h1, h2, Except.map]
    | ok imageDataItem =>
      cases h3 : getUpdatedManifest env.fs p.manifest (arweaveLink imageDataItem.id) with
      | error e => simp [h1, h2, h3, Except.map]
      | ok manifest =>
        cases h4 : signItem env (getManifestDataItem manifest) with
        | error e => simp [h1, h2, h3, h4, Except.map]
        | ok manifestDataItem =>
          simp [h1, h2, h3, h4, Except.map, appendPairResult]

theorem foldl_processBundleFilePair (env : Env) :
    ∀ (pairs : List FilePair) (acc : ProcessedBundleFilePairs),
      List.foldl (processBundleFilePair env) (Except.ok acc) pairs =
        (transformAll env pairs).map (fun prs => appendAll acc prs) := by
  intro pairs
  induction pairs with
  | nil => intro acc; rfl
  | cons p rest ih =>
    intro acc
    rw [List.foldl_cons, processBundleFilePair_ok]
    cases h : transformPair env p with
    | error e =>
      simp only [transformAll, h, except_map_error]
      exact foldl_processBundleFilePair_error env e rest
    | ok r =>
      simp only [transformAll, h, except_bind_ok, except_map_ok]
      rw [ih (appendPairResult acc r)]
      cases h2 : transformAll env rest with
      | error e => simp [h2]
      | ok rs => simp [h2, appendAll]

theorem processPairs_eq (env : Env) (pairs : List FilePair) :
    processPairs env pairs =
      (transformAll env pairs).map (fun prs => appendAll emptyProcessed prs) :=
  foldl_processBundleFilePair env pairs emptyProcessed

theorem appendAll_fields (acc : ProcessedBundleFilePairs) :
    ∀ prs : List PairResult,
      (appendAll acc prs).cacheKeys = acc.cacheKeys ++ prs.map PairResult.key ∧
      (appendAll acc prs).dataItems =
        acc.dataItems ++ (prs.map (fun r => [r.imageItem, r.manifestItem])).flatten ∧
      (appendAll acc prs).manifestLinks =
        acc.manifestLinks ++ prs.map PairResult.manifestLink ∧
      (appendAll acc prs).updatedManifests =
        acc.updatedManifests ++ prs.map PairResult.manifest := by
  intro prs
  induction prs generalizing acc with
  | nil => simp [appendAll]
  | cons r rest ih =>
    obtain ⟨h1, h2, h3, h4⟩ := ih (appendPairResult acc r)
    simp only [appendAll, List.foldl_cons] at h1 h2 h3 h4 ⊢
    rw [h1, h2, h3, h4]
    simp [appendPairResult, List.append_assoc]

theorem arweaveLink_ne_empty (i : String) : arweaveLink i ≠ "" := by
  intro h
  have hl : (arweaveLink i).length = 0 := by rw [h]; rfl
  rw [arweaveLink, String.length_append] at hl
  have h20 : ("https://arweave.net/" : String).length = 20 := rfl
  omega

theorem getUpdatedManifest_ok (fs : FS) (manifestPath imageLink : String)
    (m' : Manifest) (h : getUpdatedManifest fs manifestPath imageLink = Except.ok m') :
    m'.image = imageLink ∧
    m'.properties.files = [{ type := CONTENT_TYPES_png, uri := imageLink }] := by
  unfold getUpdatedManifest at h
  cases h0 : readFileContent fs manifestPath with
  | error e => rw [h0] at h; simp at h
  | ok c =>
    rw [h0] at h
    simp only [except_bind_ok] at h
    cases h1 : parseManifest c with
    | error e => rw [h1] at h; simp at h
    | ok m =>
      rw [h1] at h
      simp only [except_bind_ok, except_pure_eq] at h
      cases h
      exact ⟨rfl, rfl⟩

theorem transformPair_ok (env : Env) (p : FilePair) (r : PairResult)
    (h : transformPair env p = Except.ok r) :
    r.key = p.key ∧
    r.manifest.image = arweaveLink r.imageItem.id ∧
    r.manifest.image ≠ "" ∧
    r.manifestItem.payload = FileContent.json r.manifest ∧
    r.imageItem.tags = imageTags ∧
    r.manifestItem.tags = manifestTags ∧
    env.sign r.imageItem.payload r.imageItem.tags = Except.ok r.imageItem.id ∧
    env.sign r.manifestItem.payload r.manifestItem.tags = Except.ok r.manifestItem.id ∧
    r.manifestLink = arweaveLink r.manifestItem.id ∧
    r.manifest.properties.files =
      [{ type := CONTENT_TYPES_png, uri := r.manifest.image }] := by
  unfold transformPair at h
  simp only [getImageDataItem, signItem, getManifestDataItem, createData] at h
  cases h0 : readFileContent env.fs p.image with
  | error e => rw [h0] at h; simp at h
  | ok c =>
    rw [h0] at h
    simp only [except_map_ok, except_bind_ok] at h
    cases h1 : env.sign c imageTags with
    | error e => rw [h1] at h; simp at h
    | ok i =>
      rw [h1] at h
      simp only [except_map_ok, except_bind_ok] at h
      cases h2 : getUpdatedManifest env.fs p.manifest (arweaveLink i) with
      | error e => rw [h2] at h; simp at h
      | ok m =>
        rw [h2] at h
        simp only [except_bind_ok] at h
        cases h3 : env.sign (FileContent.json m) manifestTags with
        | error e => rw [h3] at h; simp at h
        | ok j =>
          rw [h3] at h
          simp only [except_map_ok, except_bind_ok, except_pure_eq] at h
          obtain ⟨him, hfiles⟩ := getUpdatedManifest_ok env.fs p.manifest _ m h2
          cases h
          refine ⟨rfl, him, ?_, rfl, rfl, rfl, h1, h3, rfl, ?_⟩
          · rw [him]; exact arweaveLink_ne_empty _
          · rw [hfiles, him]

theorem transformAll_ok (env : Env) :
    ∀ (pairs : List FilePair) (prs : List PairResult),
      transformAll env pairs = Except.ok prs →
      prs.length = pairs.length ∧
      prs.map PairResult.key = pairs.map FilePair.key ∧
      ∀ r ∈ prs, ∃ p ∈ pairs, transformPair env p = Except.ok r := by
  intro pairs
  induction pairs with
  | nil =>
    intro prs h
    simp only [transformAll] at h
    cases h
    simp
  | cons p rest ih =>
    intro prs h
    simp only [transformAll] at h
    cases h1 : transformPair env p with
    | error e => rw [h1] at h; simp at h
    | ok r =>
      rw [h1] at h
      simp only [except_bind_ok] at h
      cases h2 : transformAll env rest with
      | error e => rw [h2] at h; simp at h
      | ok rs =>
        rw [h2] at h
        simp only [except_bind_ok, except_pure_eq] at h
        cases h
        obtain ⟨hlen, hkeys, hmem⟩ := ih rs h2
        have hk : r.key = p.key := (transformPair_ok env p r h1).1
        refine ⟨by simp [hlen], by simp [hkeys, hk], ?_⟩
        intro r' hr'
        rcases List.mem_cons.mp hr' with h | h
        · exact ⟨p, List.mem_cons_self p rest, h ▸ h1⟩
        · obtain ⟨q, hq, htq⟩ := hmem r' h
          exact ⟨q, List.mem_cons_of_mem p hq, htq⟩

/-! ### Analysis of the range selector -/

theorem sum_take_mono (szs : List Nat) (a b : Nat) (h : a ≤ b) :
    (szs.take a).sum ≤ (szs.take b).sum := by
  have hb : b = a + (b - a) := by omega
  rw [hb, List.take_add, List.sum_append]
  exact Nat.le_add_right _ _

theorem rangeOfSizes_ok (limit : Nat) :
    ∀ (szs : List Nat) (t r c total : Nat),
      (r = 0 → t = 0) → (0 < r → t < limit) →
      rangeOfSizes limit szs t r = Except.ok { range := c, size := total } →
      r ≤ c ∧ c - r ≤ szs.length ∧ total = t + (szs.take (c - r)).sum ∧
      (c - r = szs.length ∨ limit ≤ t + (szs.take (c - r + 1)).sum) ∧
      (0 < c → total < limit) ∧ (c = 0 → szs = [] ∧ total = t) := by
  intro szs
  induction szs with
  | nil =>
    intro t r c total hz hlt h
    simp only [rangeOfSizes] at h
    cases h
    exact ⟨Nat.le_refl _, by simp, by simp, Or.inl (by simp), hlt, fun _ => ⟨rfl, rfl⟩⟩
  | cons s rest ih =>
    intro t r c total hz hlt h
    simp only [rangeOfSizes] at h
    by_cases hb : limit ≤ t + s
    · rw [if_pos hb] at h
      by_cases hr : r = 0
      · rw [if_pos hr] at h; simp at h
      · rw [if_neg hr] at h
        cases h
        refine ⟨Nat.le_refl _, by simp, by simp, Or.inr ?_,
          fun _ => hlt (Nat.pos_of_ne_zero hr), fun hc => absurd hc hr⟩
        simpa using hb
    · rw [if_neg hb] at h
      have hlt' : t + s < limit := Nat.lt_of_not_le hb
      obtain ⟨h1, h2, h3, h4, h5, h6⟩ :=
        ih (t + s) (r + 1) c total (by omega) (fun _ => hlt') h
      have hrc : r + 1 ≤ c := h1
      have hsub : c - r = (c - (r + 1)) + 1 := by omega
      refine ⟨by omega, ?_, ?_, ?_, h5, ?_⟩
      · simp only [List.length_cons]; omega
      · rw [hsub]
        simp only [List.take_succ_cons, List.sum_cons]
        omega
      · rcases h4 with h4 | h4
        · left; simp only [List.length_cons]; omega
        · right
          rw [hsub]
          simp only [List.take_succ_cons, List.sum_cons]
          have : c - (r + 1) + 1 + 1 = c - (r + 1) + 1 + 1 := rfl
          omega
      · intro hc; omega

theorem except_mapError_ok {ε ε' α : Type} (f : ε → ε') (a : α) :
    (Except.ok a : Except ε α).mapError f = Except.ok a := rfl

theorem except_mapError_error {ε ε' α : Type} (f : ε → ε') (e : ε) :
    (Except.error e : Except ε α).mapError f = Except.error (f e) := rfl

theorem getBundleRangeAux_toSizes (fs : FS) (limit : Nat) :
    ∀ (pairs : List FilePair) (szs : List Nat) (t r : Nat),
      sizesOf fs pairs = some szs →
      (getBundleRangeAux fs limit pairs t r).mapError (fun _ => ()) =
        rangeOfSizes limit szs t r := by
  intro pairs
  induction pairs with
  | nil =>
    intro szs t r hs
    simp only [sizesOf, List.mapM_nil] at hs
    cases hs
    rfl
  | cons p rest ih =>
    intro szs t r hs
    rw [sizesOf, List.mapM_cons] at hs
    cases h0 : filePairSize fs p with
    | error e => rw [h0] at hs; simp at hs
    | ok s =>
      rw [h0] at hs
      simp only [except_toOption_ok, option_bind_some] at hs
      cases h1 : rest.mapM (fun p => (filePairSize fs p).toOption) with
      | none => rw [h1] at hs; simp at hs
      | some ss =>
        rw [h1] at hs
        simp only [option_bind_some, option_pure_eq] at hs
        cases hs
        simp only [getBundleRangeAux, rangeOfSizes, h0, except_bind_ok]
        by_cases hb : limit ≤ t + s
        · rw [if_pos hb, if_pos hb]
          by_cases hr : r = 0
          · rw [if_pos hr, if_pos hr]; rfl
          · rw [if_neg hr, if_neg hr]; rfl
        · rw [if_neg hb, if_neg hb]
          exact ih ss (t + s) (r + 1) (by simpa [sizesOf] using h1)

theorem getBundleRangeAux_ok_le (fs : FS) (limit : Nat) :
    ∀ (pairs : List FilePair) (t r c total : Nat),
      getBundleRangeAux fs limit pairs t r = Except.ok { range := c, size := total } →
      r ≤ c := by
  intro pairs
  induction pairs with
  | nil =>
    intro t r c total h
    simp only [getBundleRangeAux] at h
    cases h
    exact Nat.le_refl _
  | cons p rest ih =>
    intro t r c total h
    simp only [getBundleRangeAux] at h
    cases h0 : filePairSize fs p with
    | error e => rw [h0] at h; simp at h
    | ok s =>
      rw [h0] at h
      simp only [except_bind_ok] at h
      by_cases hb : limit ≤ t + s
      · rw [if_pos hb] at h
        by_cases hr : r = 0
        · rw [if_pos hr] at h; simp at h
        · rw [if_neg hr] at h; cases h; exact Nat.le_refl _
      · rw [if_neg hb] at h
        exact Nat.le_of_succ_le (ih (t + s) (r + 1) c total h)

theorem getBundleRange_pos (fs : FS) (limit : Nat) (p : FilePair)
    (rest : List FilePair) (br : BundleRange)
    (h : getBundleRange fs limit (p :: rest) = Except.ok br) : 1 ≤ br.range := by
  unfold getBundleRange getBundleRangeAux at h
  cases h0 : filePairSize fs p with
  | error e => rw [h0] at h; simp at h
  | ok s =>
    rw [h0] at h
    simp only [except_bind_ok, Nat.zero_add] at h
    by_cases hb : limit ≤ s
    · rw [if_pos hb] at h
      simp at h
    · rw [if_neg hb] at h
      obtain ⟨c, total⟩ := br
      exact getBundleRangeAux_ok_le fs limit rest s 1 c total h

theorem getBundleRange_oversize (fs : FS) (limit : Nat) (p : FilePair)
    (rest : List FilePair) (s : Nat)
    (h0 : filePairSize fs p = Except.ok s) (h1 : limit ≤ s) :
    getBundleRange fs limit (p :: rest) =
      Except.error (UploadError.oversizePair p.key s) := by
  unfold getBundleRange getBundleRangeAux
  rw [h0]
  simp [h1]

theorem sizesOf_cons (fs : FS) (p : FilePair) (rest : List FilePair)
    (szs : List Nat) (hs : sizesOf fs (p :: rest) = some szs) :
    ∃ s ss, filePairSize fs p = Except.ok s ∧ sizesOf fs rest = some ss ∧
      szs = s :: ss := by
  rw [sizesOf, List.mapM_cons] at hs
  cases h0 : filePairSize fs p with
  | error e => rw [h0] at hs; simp at hs
  | ok s =>
    rw [h0] at hs
    simp only [except_toOption_ok, option_bind_some] at hs
    cases h1 : rest.mapM (fun p => (filePairSize fs p).toOption) with
    | none => rw [h1] at hs; simp at hs
    | some ss =>
      rw [h1] at hs
      simp only [option_bind_some, option_pure_eq] at hs
      cases hs
      exact ⟨s, ss, rfl, by rw [sizesOf]; exact h1, rfl⟩

theorem sizesOf_length (fs : FS) :
    ∀ (pairs : List FilePair) (szs : List Nat),
      sizesOf fs pairs = some szs → szs.length = pairs.length
  | [], szs, hs => by
    rw [sizesOf, List.mapM_nil] at hs
    cases hs
    rfl
  | p :: rest, szs, hs => by
    obtain ⟨s, ss, h0, h1, rfl⟩ := sizesOf_cons fs p rest szs hs
    simp [sizesOf_length fs rest ss h1]

theorem getBundleRange_toSizes (fs : FS) (limit : Nat) (pairs : List FilePair)
    (szs : List Nat) (hs : sizesOf fs pairs = some szs) :
    (getBundleRange fs limit pairs).mapError (fun _ => ()) =
      rangeOfSizes limit szs 0 0 :=
  getBundleRangeAux_toSizes fs limit pairs szs 0 0 hs

theorem getBundleRange_ok_of_sizes (fs : FS) (limit : Nat) (pairs : List FilePair)
    (szs : List Nat) (hs : sizesOf fs pairs = some szs) (br : BundleRange)
    (h : getBundleRange fs limit pairs = Except.ok br) :
    rangeOfSizes limit szs 0 0 = Except.ok br := by
  rw [← getBundleRange_toSizes fs limit pairs szs hs, h]
  rfl

/-! ### Claim theorems -/

/-- C1: For every byte limit and every pending list whose per-pair sizes (image
size + metadata size) are `szs`, getBundleRange returns the maximal prefix
length `count` whose prefix sum is strictly below the limit, together with that
prefix sum as the total size; except that when the first pair's size alone
meets or exceeds the limit it fails with an OversizePair error carrying that
pair's key; and it never returns count = 0 on a non-empty list. -/
theorem C1_getBundleRange_maximal_count (fs : FS) (limit : Nat)
    (pairs : List FilePair) (szs : List Nat)
    (hs : sizesOf fs pairs = some szs) :
    (∀ count total,
        getBundleRange fs limit pairs = Except.ok { range := count, size := total } →
        total = (szs.take count).sum ∧
        count ≤ pairs.length ∧
        (0 < count → total < limit) ∧
        (∀ j, j ≤ pairs.length → (szs.take j).sum < limit → j ≤ count) ∧
        (count = 0 → pairs = [])) ∧
    (∀ p rest s srest, pairs = p :: rest → szs = s :: srest → limit ≤ s →
        getBundleRange fs limit pairs =
          Except.error (UploadError.oversizePair p.key s)) ∧
    (pairs ≠ [] →
      ∀ total, getBundleRange fs limit pairs ≠ Except.ok { range := 0, size := total }) := by
  have hlen : szs.length = pairs.length := sizesOf_length fs pairs szs hs
  refine ⟨?_, ?_, ?_⟩
  · intro count total h
    have hpure : rangeOfSizes limit szs 0 0 = Except.ok { range := count, size := total } :=
      getBundleRange_ok_of_sizes fs limit pairs szs hs _ h
    obtain ⟨_, h2, h3, h4, h5, h6⟩ :=
      rangeOfSizes_ok limit szs 0 0 count total (fun _ => rfl) (by omega) hpure
    simp only [Nat.sub_zero, Nat.zero_add] at h2 h3 h4
    refine ⟨h3, by omega, h5, ?_, ?_⟩
    · intro j hj hjsum
      by_contra hgt
      push_neg at hgt
      rcases h4 with h4 | h4
      · omega
      · have hmono : (szs.take (count + 1)).sum ≤ (szs.take j).sum :=
          sum_take_mono szs (count + 1) j (by omega)
        omega
    · intro hc
      obtain ⟨hsz, _⟩ := h6 hc
      have : pairs.length = 0 := by rw [← hlen, hsz]; rfl
      exact List.length_eq_zero.mp this
  · rintro p rest s srest rfl rfl hlim
    obtain ⟨s', ss, h0, _, heq⟩ := sizesOf_cons fs p rest _ hs
    cases heq
    exact getBundleRange_oversize fs limit p rest s h0 hlim
  · intro hne total h
    cases pairs with
    | nil => exact absurd rfl hne
    | cons p rest =>
      have := getBundleRange_pos fs limit p rest _ h
      simp at this

/-! ### Concrete fixtures used by witnesses and scenarios -/

/-- A well-formed on-disk manifest document used by the fixtures. -/
def demoManifest : Manifest :=
  { image := "placeholder",
    properties := { files := [{ type := "video/mp4", uri := "old" }],
                    rest := [("category", "image")] },
    rest := [("name", "Asset 0")] }

/-- A concrete filesystem: three complete file pairs of combined size 400
bytes each, plus one oversized pair of combined size 1200 bytes. -/
def demoFs : FS := fun p =>
  if p = "assets/0.png" then some { size := 250, content := FileContent.bytes [0] }
  else if p = "assets/0.json" then some { size := 150, content := FileContent.json demoManifest }
  else if p = "assets/1.png" then some { size := 300, content := FileContent.bytes [1] }
  else if p = "assets/1.json" then some { size := 100, content := FileContent.json demoManifest }
  else if p = "assets/2.png" then some { size := 350, content := FileContent.bytes [2] }
  else if p = "assets/2.json" then some { size := 50, content := FileContent.json demoManifest }
  else if p = "assets/big.png" then some { size := 1100, content := FileContent.bytes [3] }
  else if p = "assets/big.json" then some { size := 100, content := FileContent.json demoManifest }
  else none

/-- The three complete demo file pairs, as the generator would build them. -/
def demoPairs : List FilePair := filePairsOf "assets" ["0", "1", "2"]

/-- The oversized demo file pair (1100 + 100 = 1200 bytes). -/
def bigPair : FilePair :=
  { key := "big", image := "assets/big.png", manifest := "assets/big.json" }

/-- A second filesystem with different paths, contents and per-file sizes,
but the same combined per-pair sizes as `demoFs` (used for noninterference). -/
def altFs : FS := fun p =>
  if p = "x/a.png" then some { size := 100, content := FileContent.bytes [9, 9] }
  else if p = "x/a.json" then some { size := 300, content := FileContent.bytes [7] }
  else if p = "x/b.png" then some { size := 399, content := FileContent.bytes [] }
  else if p = "x/b.json" then some { size := 1, content := FileContent.json demoManifest }
  else if p = "x/c.png" then some { size := 400, content := FileContent.bytes [5] }
  else if p = "x/c.json" then some { size := 0, content := FileContent.bytes [] }
  else none

/-- The file pairs of `altFs`. -/
def altPairs : List FilePair := filePairsOf "x" ["a", "b", "c"]

theorem C1_witness :
    sizesOf demoFs demoPairs = some [400, 400, 400] ∧
    ((∀ count total,
        getBundleRange demoFs 1000 demoPairs =
          Except.ok { range := count, size := total } →
        total = (([400, 400, 400] : List Nat).take count).sum ∧
        count ≤ demoPairs.length ∧
        (0 < count → total < 1000) ∧
        (∀ j, j ≤ demoPairs.length →
          (([400, 400, 400] : List Nat).take j).sum < 1000 → j ≤ count) ∧
        (count = 0 → demoPairs = [])) ∧
    (∀ p rest s srest, demoPairs = p :: rest →
        ([400, 400, 400] : List Nat) = s :: srest → 1000 ≤ s →
        getBundleRange demoFs 1000 demoPairs =
          Except.error (UploadError.oversizePair p.key s)) ∧
    (demoPairs ≠ [] →
      ∀ total, getBundleRange demoFs 1000 demoPairs ≠
        Except.ok { range := 0, size := total })) :=
  ⟨by rfl, C1_getBundleRange_maximal_count demoFs 1000 demoPairs [400, 400, 400] (by rfl)⟩

/-- C2 counterexample: on a pending list whose single next pair has combined
size 1200 ≥ limit 1000, getBundleRange does not return any BundleRange (in
particular none with count = 1): it fails with an OversizePair error. -/
theorem C2_counterexample :
    getBundleRange demoFs 1000 [bigPair] =
      Except.error (UploadError.oversizePair "big" 1200) ∧
    (getBundleRange demoFs 1000 [bigPair]).toOption = none :=
  ⟨by rfl, by rfl⟩

/-- C2 (amended): when even the single next pending pair already meets or
exceeds the configured byte limit, getBundleRange does not return a
BundleRange with count = 1 (nor any BundleRange): it throws an OversizePair
error carrying the offending pair's key and size, which the caller must treat
as a fatal oversize error. -/
theorem C2_single_oversize_pair_fails (fs : FS) (limit : Nat) (p : FilePair)
    (rest : List FilePair) (s : Nat)
    (h0 : filePairSize fs p = Except.ok s) (h1 : limit ≤ s) :
    getBundleRange fs limit (p :: rest) =
      Except.error (UploadError.oversizePair p.key s) :=
  getBundleRange_oversize fs limit p rest s h0 h1

theorem C2_witness :
    filePairSize demoFs bigPair = Except.ok 1200 ∧ 1000 ≤ 1200 ∧
    getBundleRange demoFs 1000 (bigPair :: []) =
      Except.error (UploadError.oversizePair bigPair.key 1200) :=
  ⟨by rfl, by decide,
    C2_single_oversize_pair_fails demoFs 1000 bigPair [] 1200 (by rfl) (by decide)⟩

/-- C6: with byte limit 1000 and three pending pairs of combined sizes 400,
400 and 400, the first call to getBundleRange returns count 2 with totalBytes
800 (a third pair would reach 1200 ≥ 1000), and after removing those two
pairs the second call returns count 1 for the remaining pair. -/
theorem C6_scenario_400_400_400 :
    getBundleRange demoFs 1000 demoPairs = Except.ok { range := 2, size := 800 } ∧
    getBundleRange demoFs 1000 (demoPairs.drop 2) =
      Except.ok { range := 1, size := 400 } :=
  ⟨by rfl, by rfl⟩

/-- C10: for a fixed byte limit, the outcome of getBundleRange depends only on
the sequence of combined per-pair sizes: two pending lists with pointwise
equal sizes yield the same result, an identical BundleRange (same count and
totalBytes) on success, and failure together otherwise, regardless of keys,
paths or file contents. -/
theorem C10_depends_only_on_sizes (fs1 fs2 : FS) (limit : Nat)
    (pairs1 pairs2 : List FilePair) (szs : List Nat)
    (h1 : sizesOf fs1 pairs1 = some szs) (h2 : sizesOf fs2 pairs2 = some szs) :
    (getBundleRange fs1 limit pairs1).mapError (fun _ => ()) =
      (getBundleRange fs2 limit pairs2).mapError (fun _ => ()) := by
  rw [getBundleRange_toSizes fs1 limit pairs1 szs h1,
      getBundleRange_toSizes fs2 limit pairs2 szs h2]

theorem C10_witness :
    sizesOf demoFs demoPairs = some [400, 400, 400] ∧
    sizesOf altFs altPairs = some [400, 400, 400] ∧
    (getBundleRange demoFs 777 demoPairs).mapError (fun _ => ()) =
      (getBundleRange altFs 777 altPairs).mapError (fun _ => ()) :=
  ⟨by rfl, by rfl,
    C10_depends_only_on_sizes demoFs altFs 777 demoPairs altPairs [400, 400, 400]
      (by rfl) (by rfl)⟩

/-- C7: for every well-formed on-disk metadata document and every image link,
getUpdatedManifest returns the parsed document with its image field set to the
link and its properties.files replaced by exactly one entry whose uri is that
same link and whose type is the image content-type; all other fields of the
parsed document (properties.rest and the document's rest) are unchanged. -/
theorem C7_getUpdatedManifest_rewrites_image (fs : FS)
    (manifestPath imageLink : String) (f : FsFile) (m : Manifest)
    (hf : fs manifestPath = some f) (hc : f.content = FileContent.json m) :
    getUpdatedManifest fs manifestPath imageLink =
      Except.ok { image := imageLink,
                  properties := { files := [{ type := CONTENT_TYPES_png, uri := imageLink }],
                                  rest := m.properties.rest },
                  rest := m.rest } := by
  unfold getUpdatedManifest readFileContent
  rw [hf]
  dsimp only
  rw [hc]
  rfl

theorem C7_witness :
    demoFs "assets/0.json" =
      some { size := 150, content := FileContent.json demoManifest } ∧
    ({ size := 150, content := FileContent.json demoManifest } : FsFile).content =
      FileContent.json demoManifest ∧
    getUpdatedManifest demoFs "assets/0.json" "https://arweave.net/IMG" =
      Except.ok { image := "https://arweave.net/IMG",
                  properties := { files := [{ type := CONTENT_TYPES_png,
                                              uri := "https://arweave.net/IMG" }],
                                  rest := demoManifest.properties.rest },
                  rest := demoManifest.rest } :=
  ⟨by rfl, by rfl,
    C7_getUpdatedManifest_rewrites_image demoFs "assets/0.json"
      "https://arweave.net/IMG" _ demoManifest (by rfl) (by rfl)⟩

/-- C8: the first value produced by the generator is always the empty
BundleResult (all three sequences empty), for every environment, limit, pull
budget and asset list (including the empty list) — it is a constant, produced
before any range computation, file read, signing or submission. -/
theorem C8_first_result_empty (env : Env) (limit fuel : Nat)
    (dirname : String) (assets : List String) :
    (makeArweaveBundleUploadGenerator env limit fuel dirname assets).head? =
      some (Except.ok { cacheKeys := [], manifestLinks := [], updatedManifests := [] }) :=
  rfl

theorem processBundle_ok_decomp (env : Env) (seg : List FilePair)
    (r : UploadGeneratorResult) (h : processBundle env seg = Except.ok r) :
    ∃ prs : List PairResult,
      transformAll env seg = Except.ok prs ∧
      prs.length = seg.length ∧
      r.cacheKeys = seg.map FilePair.key ∧
      r.manifestLinks = prs.map PairResult.manifestLink ∧
      r.updatedManifests = prs.map PairResult.manifest ∧
      env.submit ((prs.map (fun pr => [pr.imageItem, pr.manifestItem])).flatten) =
        Except.ok () := by
  unfold processBundle at h
  rw [processPairs_eq] at h
  cases h2 : transformAll env seg with
  | error e => rw [h2] at h; simp at h
  | ok prs =>
    rw [h2] at h
    simp only [except_map_ok, except_bind_ok] at h
    obtain ⟨hck, hdi, hml, hum⟩ := appendAll_fields emptyProcessed prs
    rw [hck, hdi, hml, hum] at h
    simp only [emptyProcessed, List.nil_append] at h
    cases hsub : env.submit ((prs.map (fun pr => [pr.imageItem, pr.manifestItem])).flatten) with
    | error e => rw [hsub] at h; simp at h
    | ok u =>
      rw [hsub] at h
      simp only [except_bind_ok, except_pure_eq] at h
      cases h
      obtain ⟨hlen, hkeys, _⟩ := transformAll_ok env seg prs h2
      exact ⟨prs, rfl, hlen, by simpa using hkeys, rfl, rfl, by cases u; exact hsub⟩

/-- C3: whenever a bundle's pairs are all processed successfully, each pair
contributed exactly two records, its signed image record immediately followed
by its metadata record, in pair-processing order, and that interleaved record
sequence is what is handed to bundling and submission; each updated metadata
document's image field equals the link derived from its signed image record's
id (never empty), and the metadata record wraps that finalized document. -/
theorem C3_image_signed_before_manifest (env : Env) (pairs : List FilePair)
    (res : UploadGeneratorResult) (h : processBundle env pairs = Except.ok res) :
    ∃ prs : List PairResult,
      transformAll env pairs = Except.ok prs ∧
      prs.length = pairs.length ∧
      env.submit ((prs.map (fun pr => [pr.imageItem, pr.manifestItem])).flatten) =
        Except.ok () ∧
      res.updatedManifests = prs.map PairResult.manifest ∧
      ∀ pr ∈ prs,
        env.sign pr.imageItem.payload pr.imageItem.tags = Except.ok pr.imageItem.id ∧
        pr.manifest.image = arweaveLink pr.imageItem.id ∧
        pr.manifest.image ≠ "" ∧
        pr.manifestItem.payload = FileContent.json pr.manifest := by
  obtain ⟨prs, htr, hlen, _, _, hum, hsub⟩ := processBundle_ok_decomp env pairs res h
  refine ⟨prs, htr, hlen, hsub, hum, ?_⟩
  intro pr hpr
  obtain ⟨p, _, htp⟩ := (transformAll_ok env pairs prs htr).2.2 pr hpr
  obtain ⟨_, him, hne, hpay, _, _, hsig, _, _, _⟩ := transformPair_ok env p pr htp
  exact ⟨hsig, him, hne, hpay⟩

/-- A successful environment over `demoFs`: signing always yields id "TX" and
submission always succeeds. -/
def demoEnv : Env :=
  { fs := demoFs,
    sign := fun _ _ => Except.ok "TX",
    submit := fun _ => Except.ok () }

/-- The link derived from the demo signing id. -/
def demoLink : String := "https://arweave.net/TX"

/-- `demoManifest` after the update performed by getUpdatedManifest with
`demoLink`. -/
def demoUpdated : Manifest :=
  { image := demoLink,
    properties := { files := [{ type := CONTENT_TYPES_png, uri := demoLink }],
                    rest := demoManifest.properties.rest },
    rest := demoManifest.rest }

/-- The bookkeeping of the bundle over all three demo pairs. -/
def demoResult : UploadGeneratorResult :=
  { cacheKeys := ["0", "1", "2"],
    manifestLinks := [demoLink, demoLink, demoLink],
    updatedManifests := [demoUpdated, demoUpdated, demoUpdated] }

theorem C3_witness :
    processBundle demoEnv demoPairs = Except.ok demoResult ∧
    ∃ prs : List PairResult,
      transformAll demoEnv demoPairs = Except.ok prs ∧
      prs.length = demoPairs.length ∧
      demoEnv.submit ((prs.map (fun pr => [pr.imageItem, pr.manifestItem])).flatten) =
        Except.ok () ∧
      demoResult.updatedManifests = prs.map PairResult.manifest ∧
      ∀ pr ∈ prs,
        demoEnv.sign pr.imageItem.payload pr.imageItem.tags = Except.ok pr.imageItem.id ∧
        pr.manifest.image = arweaveLink pr.imageItem.id ∧
        pr.manifest.image ≠ "" ∧
        pr.manifestItem.payload = FileContent.json pr.manifest :=
  ⟨by rfl, C3_image_signed_before_manifest demoEnv demoPairs demoResult (by rfl)⟩

/-! ### The driver loop -/

theorem driverRun_succ_nil (env : Env) (limit fuel : Nat) :
    driverRun env limit (fuel + 1) [] = [] := rfl

theorem driverRun_succ_error (env : Env) (limit fuel : Nat) (p : FilePair)
    (ps : List FilePair) (e : UploadError)
    (h : getBundleRange env.fs limit (p :: ps) = Except.error e) :
    driverRun env limit (fuel + 1) (p :: ps) =
      Except.error e :: driverRun env limit fuel (p :: ps) := by
  simp [driverRun, driverStep, h]

theorem driverRun_succ_ok (env : Env) (limit fuel : Nat) (p : FilePair)
    (ps : List FilePair) (br : BundleRange)
    (h : getBundleRange env.fs limit (p :: ps) = Except.ok br) :
    driverRun env limit (fuel + 1) (p :: ps) =
      processBundle env ((p :: ps).take br.range) ::
        driverRun env limit fuel ((p :: ps).drop br.range) := by
  simp [driverRun, driverStep, h]

/-- C4: over any generator run, the original pending list splits into
consecutive disjoint segments, one per produced result, followed by the
unconsumed leftover — so every file pair lands in at most one bundle, in
pending-list order — and each successful result's cacheKeys, manifestLinks
and updatedManifests all have the length of its segment and are positionally
aligned with it (index i of each describes the segment's i-th pair). -/
theorem C4_pairs_consumed_once_and_aligned (env : Env) (limit : Nat)
    (fuel : Nat) (pending : List FilePair) :
    ∃ (segs : List (List FilePair)) (leftover : List FilePair),
      pending = segs.flatten ++ leftover ∧
      List.Forall₂
        (fun res seg =>
          ∀ r, res = Except.ok r →
            ∃ prs, transformAll env seg = Except.ok prs ∧
              prs.length = seg.length ∧
              r.cacheKeys = seg.map FilePair.key ∧
              r.manifestLinks = prs.map PairResult.manifestLink ∧
              r.updatedManifests = prs.map PairResult.manifest)
        (driverRun env limit fuel pending) segs := by
  induction fuel generalizing pending with
  | zero => exact ⟨[], pending, rfl, List.Forall₂.nil⟩
  | succ fuel ih =>
    cases pending with
    | nil =>
      exact ⟨[], [], rfl, by rw [driverRun_succ_nil]; exact List.Forall₂.nil⟩
    | cons p ps =>
      cases hgr : getBundleRange env.fs limit (p :: ps) with
      | error e =>
        obtain ⟨segs, leftover, hpart, hall⟩ := ih (p :: ps)
        refine ⟨[] :: segs, leftover, by simpa using hpart, ?_⟩
        rw [driverRun_succ_error env limit fuel p ps e hgr]
        exact List.Forall₂.cons (fun r hr => by simp at hr) hall
      | ok br =>
        obtain ⟨segs, leftover, hpart, hall⟩ := ih ((p :: ps).drop br.range)
        refine ⟨(p :: ps).take br.range :: segs, leftover, ?_, ?_⟩
        · rw [List.flatten_cons, List.append_assoc, ← hpart, List.take_append_drop]
        · rw [driverRun_succ_ok env limit fuel p ps br hgr]
          refine List.Forall₂.cons ?_ hall
          intro r hr
          obtain ⟨prs, htr, hlen, hck, hml, hum, _⟩ :=
            processBundle_ok_decomp env _ r hr
          exact ⟨prs, htr, hlen, hck, hml, hum⟩

theorem C4_witness :
    ∃ (segs : List (List FilePair)) (leftover : List FilePair),
      demoPairs = segs.flatten ++ leftover ∧
      List.Forall₂
        (fun res seg =>
          ∀ r, res = Except.ok r →
            ∃ prs, transformAll demoEnv seg = Except.ok prs ∧
              prs.length = seg.length ∧
              r.cacheKeys = seg.map FilePair.key ∧
              r.manifestLinks = prs.map PairResult.manifestLink ∧
              r.updatedManifests = prs.map PairResult.manifest)
        (driverRun demoEnv 1000 5 demoPairs) segs :=
  C4_pairs_consumed_once_and_aligned demoEnv 1000 5 demoPairs

/-- C5: when getBundleRange has succeeded on a non-empty pending list and any
later step of the bundle fails (read, parse, signing or submission), the pull
settles with that error and the pending list left behind is the original list
with the range's prefix removed — the failed range's pairs are not restored. -/
theorem C5_failed_range_pairs_not_restored (env : Env) (limit : Nat)
    (pending : List FilePair) (br : BundleRange) (e : UploadError)
    (hne : pending ≠ [])
    (hr : getBundleRange env.fs limit pending = Except.ok br)
    (hf : processBundle env (pending.take br.range) = Except.error e) :
    driverStep env limit pending = some (Except.error e, pending.drop br.range) := by
  cases pending with
  | nil => exact absurd rfl hne
  | cons p ps => simp [driverStep, hr, hf]

/-- A filesystem whose only manifest file is malformed (unparseable). -/
def badFs : FS := fun p =>
  if p = "b/0.png" then some { size := 10, content := FileContent.bytes [1] }
  else if p = "b/0.json" then some { size := 10, content := FileContent.bytes [2] }
  else none

/-- An otherwise healthy environment over `badFs`. -/
def badEnv : Env :=
  { fs := badFs,
    sign := fun _ _ => Except.ok "TX",
    submit := fun _ => Except.ok () }

/-- The single file pair of `badFs`. -/
def badPairs : List FilePair := filePairsOf "b" ["0"]

theorem C5_witness :
    badPairs ≠ [] ∧
    getBundleRange badEnv.fs 1000 badPairs = Except.ok { range := 1, size := 20 } ∧
    processBundle badEnv (badPairs.take 1) = Except.error UploadError.parseError ∧
    driverStep badEnv 1000 badPairs =
      some (Except.error UploadError.parseError, badPairs.drop 1) :=
  ⟨by simp [badPairs, filePairsOf], by rfl, by rfl,
    C5_failed_range_pairs_not_restored badEnv 1000 badPairs
      { range := 1, size := 20 } UploadError.parseError
      (by simp [badPairs, filePairsOf]) (by rfl) (by rfl)⟩

/-- Whether a settled generator result is a success. -/
def isOkResult : Except UploadError UploadGeneratorResult → Bool
  | Except.ok _ => true
  | Except.error _ => false

theorem driverRun_length_le (env : Env) (limit : Nat) :
    ∀ (fuel : Nat) (pending : List FilePair),
      (∀ res ∈ driverRun env limit fuel pending, isOkResult res = true) →
      (driverRun env limit fuel pending).length ≤ pending.length := by
  intro fuel
  induction fuel with
  | zero => intro pending _; simp [driverRun]
  | succ fuel ih =>
    intro pending hok
    cases pending with
    | nil => rw [driverRun_succ_nil]; simp
    | cons p ps =>
      cases hgr : getBundleRange env.fs limit (p :: ps) with
      | error e =>
        rw [driverRun_succ_error env limit fuel p ps e hgr] at hok
        have hmem := hok (Except.error e) (List.mem_cons_self _ _)
        simp [isOkResult] at hmem
      | ok br =>
        rw [driverRun_succ_ok env limit fuel p ps br hgr] at hok ⊢
        have hpos : 1 ≤ br.range := getBundleRange_pos env.fs limit p ps br hgr
        have hrec := ih ((p :: ps).drop br.range)
          (fun res hres => hok res (List.mem_cons_of_mem _ hres))
        simp only [List.length_cons, List.length_drop] at hrec ⊢
        omega

/-- C9: on every non-empty pending list getBundleRange either fails or
returns a count of at least 1, so every successful bundle strictly shrinks
the pending list; hence a generator run whose produced results are all
successful yields at most 1 + n results over an initial asset list of
length n (the sequence terminates absent errors). -/
theorem C9_at_most_one_plus_n_results (env : Env) (limit fuel : Nat)
    (dirname : String) (assets : List String)
    (hok : ∀ res ∈ makeArweaveBundleUploadGenerator env limit fuel dirname assets,
      isOkResult res = true) :
    (∀ (fs : FS) (l : Nat) (p : FilePair) (ps : List FilePair) (br : BundleRange),
        getBundleRange fs l (p :: ps) = Except.ok br → 1 ≤ br.range) ∧
    (makeArweaveBundleUploadGenerator env limit fuel dirname assets).length ≤
      1 + assets.length := by
  refine ⟨fun fs l p ps br h => getBundleRange_pos fs l p ps br h, ?_⟩
  unfold makeArweaveBundleUploadGenerator at hok ⊢
  simp only [List.length_cons]
  have h := driverRun_length_le env limit fuel (filePairsOf dirname assets)
    (fun res hres => hok res (List.mem_cons_of_mem _ hres))
  have hlen : (filePairsOf dirname assets).length = assets.length := by
    simp [filePairsOf]
  omega

theorem C9_witness :
    (∀ res ∈ makeArweaveBundleUploadGenerator demoEnv 1000 5 "assets" ["0", "1", "2"],
      isOkResult res = true) ∧
    ((∀ (fs : FS) (l : Nat) (p : FilePair) (ps : List FilePair) (br : BundleRange),
        getBundleRange fs l (p :: ps) = Except.ok br → 1 ≤ br.range) ∧
      (makeArweaveBundleUploadGenerator demoEnv 1000 5 "assets" ["0", "1", "2"]).length ≤
        1 + (["0", "1", "2"] : List String).length) :=
  ⟨by decide,
    C9_at_most_one_plus_n_results demoEnv 1000 5 "assets" ["0", "1", "2"] (by decide)⟩

end ArweaveBundle
